import Mathlib

/-!
Shallow embedding of the core of cosmic-weather (src/weather.rs, src/app.rs,
src/config.rs): the provider-response data model, the normalization in
get_weather_data, the two symbol-code mapping tables, the FetchWeather and
WeatherFetched handlers of AppModel::update, and the periodic-timer
subscription policy.  Rust f64 values are modelled by an explicit NaN-or-
rational type F64 (the program performs no float arithmetic beyond copying
values and one saturating cast, so plain decimal values are exact here);
u8 and u64 by Nat (the produced humidity is clamped to 0..255 by the cast
itself; the one u64 multiplication the claims touch can overflow in the
source and is modelled with an explicit % 2^64, the release-mode wrapping
semantics).  IO-only parts (the HTTP transport, SystemTime::now, the
location display string, config persistence) are outside the pure model and
noted at each definition.
-/

namespace CosmicWeather

/-- Model of a Rust f64 value: either NaN or an exact rational.  The program
copies temperatures unchanged and casts humidity with a saturating cast, so
no rounding behaviour is lost on the plain decimal values involved. -/
inductive F64
| nan : F64
| val (q : ℚ) : F64
deriving DecidableEq

/-- Model of the saturating Rust cast from f64 to u8 (expression
details.relative_humidity.unwrap_or(0.0) as u8, src/weather.rs line 118):
NaN becomes 0, the value is truncated toward zero and clamped to 0..255.
Every negative value truncates into (-256, 0] and then clamps to 0; for a
nonnegative rational, truncation toward zero is the floor, computed here as
the natural-number division num.toNat / den (the floor of a nonnegative
rational, see the floor lemma below). -/
def F64.asU8 : F64 → ℕ
| F64.nan => 0
| F64.val q => if q < 0 then 0 else min 255 (q.num.toNat / q.den)

/-- Normalized weather record (struct WeatherData, src/weather.rs lines 6-15).
The location field (a display string formatted from the coordinates) and the
timestamp field (SystemTime::now at fetch time) are omitted: the former is
Rust float Display formatting and the latter is IO; no claim concerns them. -/
structure WeatherData where
  temperature : F64
  feels_like : F64
  humidity : ℕ
  description : String
  icon : String
deriving DecidableEq

/-- Provider schema: optional instant-observation details
(struct Details, src/weather.rs lines 43-53). -/
structure Details where
  air_pressure_at_sea_level : Option F64
  air_temperature : Option F64
  air_temperature_max : Option F64
  air_temperature_min : Option F64
  cloud_area_fraction : Option F64
  relative_humidity : Option F64
  wind_from_direction : Option F64
  wind_speed : Option F64
deriving DecidableEq

/-- Provider schema: next-hour forecast summary
(struct Summary, src/weather.rs lines 55-58). -/
structure Summary where
  symbol_code : String
deriving DecidableEq

/-- Provider schema: next-hour block (struct Next1Hour, src/weather.rs
lines 60-64). -/
structure Next1Hour where
  summary : Summary
  details : Option Details
deriving DecidableEq

/-- Provider schema: instant-observation block (struct Instant,
src/weather.rs lines 66-69). -/
structure Instant where
  details : Details
deriving DecidableEq

/-- Provider schema: per-entry data (struct Data, src/weather.rs
lines 71-75). -/
structure Data where
  instant : Instant
  next_1_hours : Option Next1Hour
deriving DecidableEq

/-- Provider schema: one time-series entry (struct Timeseries,
src/weather.rs lines 77-81).  The time field, a DateTime value in the
source, is modelled as an integer instant; normalization never reads it. -/
structure Timeseries where
  time : ℤ
  data : Data
deriving DecidableEq

/-- Provider schema: unit labels (struct Units, src/weather.rs lines 24-35). -/
structure Units where
  air_pressure_at_sea_level : Option String
  air_temperature : Option String
  air_temperature_max : Option String
  air_temperature_min : Option String
  cloud_area_fraction : Option String
  precipitation_amount : Option String
  relative_humidity : Option String
  wind_from_direction : Option String
  wind_speed : Option String
deriving DecidableEq

/-- Provider schema: metadata block (struct Meta, src/weather.rs
lines 37-41); updated_at is a DateTime in the source, modelled as an
integer instant, never read by normalization. -/
structure Meta where
  updated_at : ℤ
  units : Units
deriving DecidableEq

/-- Provider schema: geometry block (struct Geometry, src/weather.rs
lines 18-22); the field named type in the source (written r#type there) is
rendered rtype. -/
structure Geometry where
  rtype : String
  coordinates : List F64
deriving DecidableEq

/-- Provider schema: properties block (struct Properties, src/weather.rs
lines 83-87). -/
structure Properties where
  meta : Meta
  timeseries : List Timeseries
deriving DecidableEq

/-- Provider schema: top-level decoded response (struct MetWeatherResponse,
src/weather.rs lines 89-94). -/
structure MetWeatherResponse where
  rtype : String
  geometry : Geometry
  properties : Properties
deriving DecidableEq

/-- Symbol-code to description table (map_weather_code_to_description,
src/weather.rs lines 149-167), transcribed arm by arm. -/
def map_weather_code_to_description (code : String) : String :=
  match code with
  | "clearsky_day" | "clearsky_night" | "clearsky_polartwilight" => "Clear sky"
  | "fair_day" | "fair_night" | "fair_polartwilight" => "Fair"
  | "cloudy" | "partlycloudy_day" | "partlycloudy_night" | "partlycloudy_polartwilight" => "Cloudy"
  | "fog" => "Fog"
  | "lightrain" | "rainshowers_day" | "rainshowers_night" | "rainshowers_polartwilight" => "Light rain"
  | "rain" | "heavyrain" => "Rain"
  | "lightrainshowers_day" | "lightrainshowers_night" | "lightrainshowers_polartwilight" => "Light rain showers"
  | "lightsnow" => "Light snow"
  | "sleet" => "Sleet"
  | "lightsleet" => "Light sleet"
  | "thunderstorm" => "Thunderstorm"
  | "sleetshowers_day" | "sleetshowers_night" | "sleetshowers_polartwilight" => "Sleet showers"
  | "snowshowers_day" | "snowshowers_night" | "snowshowers_polartwilight" => "Snow showers"
  | "snow" | "heavysnow" => "Snow"
  | _ => "Unknown"

/-- Symbol-code to icon-category table (map_weather_code_to_icon,
src/weather.rs lines 170-184), transcribed arm by arm. -/
def map_weather_code_to_icon (code : String) : String :=
  match code with
  | "clearsky_day" => "01d"
  | "clearsky_night" => "01n"
  | "fair_day" | "partlycloudy_day" => "02d"
  | "fair_night" | "partlycloudy_night" => "02n"
  | "cloudy" => "03d"
  | "rain" | "lightrain" | "rainshowers_day" | "rainshowers_night" | "rainshowers_polartwilight" => "10d"
  | "snow" | "heavysnow" | "snowshowers_day" | "snowshowers_night" | "snowshowers_polartwilight" => "13d"
  | "fog" => "50d"
  | "thunderstorm" => "11d"
  | "sleet" | "lightsleet" => "09d"
  | _ => "01d"

/-- Normalization core of get_weather_data (src/weather.rs lines 112-142):
given a decoded response, select the first time-series entry, take the
instant temperature with default 0.0, cast the relative humidity with
default 0.0 to u8, take the next-hour symbol code with default string
(clear sky), and run the two mapping tables; with no entry, fail with the
no-data message.  The coordinates feed only the URL and the omitted
location display string, so they are not parameters here. -/
def normalizeResponse (resp : MetWeatherResponse) : Except String WeatherData :=
  match resp.properties.timeseries.head? with
  | some ts =>
      let details := ts.data.instant.details
      let temperature := details.air_temperature.getD (F64.val 0)
      let humidity := (details.relative_humidity.getD (F64.val 0)).asU8
      let description := (ts.data.next_1_hours.map (fun h => h.summary.symbol_code)).getD ("clear sky")
      Except.ok {
        temperature := temperature
        feels_like := temperature
        humidity := humidity
        description := map_weather_code_to_description description
        icon := map_weather_code_to_icon description }
  | none => Except.error ("No weather data available")

/-- Success test on an HTTP status code (response.status().is_success() in
src/weather.rs line 109): the 2xx range. -/
def isSuccessStatus (code : ℕ) : Bool :=
  200 ≤ code && code ≤ 299

/-- Display string of an HTTP status code used in the failure message of
src/weather.rs line 144.  The transport renders the numeral followed by the
canonical reason phrase; the model keeps the numeral — every theorem below
relies only on the fixed message prefix, never on this suffix. -/
def statusDisplay (code : ℕ) : String :=
  toString code

/-- Post-transport pipeline of get_weather_data (src/weather.rs
lines 109-146): on a 2xx status, a successfully decoded body is normalized
and a decode failure propagates its own message (the question-mark operator
on response.json()); on a non-2xx status, the fixed API-failure message is
produced.  The network send itself is IO and precedes this pure stage. -/
def get_weather_data (status : ℕ) (decoded : Except String MetWeatherResponse) :
    Except String WeatherData :=
  if isSuccessStatus status then
    match decoded with
    | Except.ok resp => normalizeResponse resp
    | Except.error e => Except.error e
  else
    Except.error ("API request failed with status: " ++ statusDisplay status)

/-- Application configuration (struct Config, src/config.rs lines 5-14);
update_interval is a u64 minute count in the source, modelled as Nat —
arithmetic on it below applies the u64 wrap where the source performs a
u64 operation, and source configurations never hold values at or above
2^64. -/
structure Config where
  latitude : Option String
  longitude : Option String
  city : Option String
  units : String
  auto_update : Bool
  update_interval : ℕ
deriving DecidableEq

/-- Numeric value of a list of decimal digit characters. -/
def decDigitsVal (l : List Char) : ℕ :=
  l.foldl (fun a c => 10 * a + (c.toNat - 48)) 0

/-- Modelled from Rust std semantics of parsing a string as f64
(str.parse at src/app.rs lines 106 and 330), restricted to the plain
decimal fragment — optional sign, integer digits, optional dot and
fractional digits — which covers every coordinate string the claims use and
is exact in this range.  Exponent, infinity and NaN spellings of the full
grammar are outside the fragment and rejected here. -/
def parseF64 (s : String) : Option F64 :=
  let body : List Char → Option (ℤ × ℤ) := fun cs =>
    match cs.span Char.isDigit with
    | (intPart, rest) =>
      if intPart.isEmpty then none
      else
        match rest with
        | [] => some (((decDigitsVal intPart : ℕ) : ℤ), 1)
        | '.' :: frac =>
          if frac.isEmpty || !(frac.all Char.isDigit) then none
          else some (((decDigitsVal intPart * 10 ^ frac.length + decDigitsVal frac : ℕ) : ℤ),
                     ((10 ^ frac.length : ℕ) : ℤ))
        | _ => none
  match s.toList with
  | '-' :: cs => (body cs).map (fun p => F64.val (Rat.divInt (-p.1) p.2))
  | '+' :: cs => (body cs).map (fun p => F64.val (Rat.divInt p.1 p.2))
  | cs => (body cs).map (fun p => F64.val (Rat.divInt p.1 p.2))

/-- Application messages (enum Message, src/app.rs lines 32-47) restricted
to the two constructors the weather core handles; the popup and
configuration-editing messages are presentation and persistence glue,
outside the modelled core. -/
inductive Message
| FetchWeather : Message
| WeatherFetched (result : Except String WeatherData) : Message

/-- Effect returned by the update handler: either no task, or one outbound
fetch at the parsed coordinates (Task::perform(fetch_weather_data(lat, lon), ..)
versus Task::none() in src/app.rs). -/
inductive FetchTask
| none : FetchTask
| perform (lat lon : F64) : FetchTask
deriving DecidableEq

/-- Application state (struct AppModel, src/app.rs lines 15-29) restricted
to the weather core: the runtime core handle and popup id are presentation
state never read by the modelled handlers. -/
structure AppModel where
  config : Config
  weather_data : Option WeatherData
  loading : Bool
  error : Option String
deriving DecidableEq

/-- The weather-core arms of AppModel::update (src/app.rs lines 328-351).
FetchWeather: when both configured coordinate strings are present and parse,
set loading, clear the error and start one fetch task; otherwise do nothing.
WeatherFetched: clear loading; on success replace the data and clear the
error; on failure record the error. -/
def update (m : AppModel) (msg : Message) : AppModel × FetchTask :=
  match msg with
  | Message.FetchWeather =>
      match m.config.latitude, m.config.longitude with
      | some lat_str, some lon_str =>
          match parseF64 lat_str, parseF64 lon_str with
          | some lat, some lon =>
              ({ m with loading := true, error := none }, FetchTask.perform lat lon)
          | _, _ => (m, FetchTask.none)
      | _, _ => (m, FetchTask.none)
  | Message.WeatherFetched result =>
      match result with
      | Except.ok weather_data =>
          ({ m with loading := false, weather_data := some weather_data, error := none },
           FetchTask.none)
      | Except.error e =>
          ({ m with loading := false, error := some e }, FetchTask.none)

/-- Periodic-timer part of AppModel::subscription (src/app.rs
lines 276-284): the timer subscription exists exactly when auto_update is
on and both coordinate strings are present, and its period in seconds is
the u64 product max(update_interval, 5) * 60.  std::cmp::max on u64 cannot
overflow, but the multiplication by 60 is u64 arithmetic that wraps modulo
2^64 in a release build (a debug build would panic instead), so the wrap
is modelled explicitly.  The config-watch subscription is IO glue and not
modelled. -/
def subscriptionTimerSecs (cfg : Config) : Option ℕ :=
  if cfg.auto_update && cfg.latitude.isSome && cfg.longitude.isSome then
    some (max cfg.update_interval 5 * 60 % 2 ^ 64)
  else
    none

/-- Test fixture: a details block with only temperature and humidity
possibly present, matching the optional provider schema. -/
def mkDetails (t h : Option F64) : Details :=
  { air_pressure_at_sea_level := none
    air_temperature := t
    air_temperature_max := none
    air_temperature_min := none
    cloud_area_fraction := none
    relative_humidity := h
    wind_from_direction := none
    wind_speed := none }

/-- Test fixture: a unit block with every label absent. -/
def emptyUnits : Units :=
  { air_pressure_at_sea_level := none
    air_temperature := none
    air_temperature_max := none
    air_temperature_min := none
    cloud_area_fraction := none
    precipitation_amount := none
    relative_humidity := none
    wind_from_direction := none
    wind_speed := none }

/-- Test fixture: one time-series entry. -/
def mkEntry (t h : Option F64) (next : Option Next1Hour) : Timeseries :=
  { time := 0
    data := { instant := { details := mkDetails t h }, next_1_hours := next } }

/-- Test fixture: a decoded response around a given time-series list. -/
def mkResp (entries : List Timeseries) : MetWeatherResponse :=
  { rtype := "Feature"
    geometry := { rtype := "Point", coordinates := [] }
    properties := { meta := { updated_at := 0, units := emptyUnits }, timeseries := entries } }

/-- Test fixture: a configuration with parseable in-range coordinates. -/
def cfgOslo : Config :=
  { latitude := some ("59.91")
    longitude := some ("10.75")
    city := none
    units := "metric"
    auto_update := true
    update_interval := 15 }

/-- Test fixture: idle application state with the Oslo configuration. -/
def mIdle : AppModel :=
  { config := cfgOslo, weather_data := none, loading := false, error := none }

/-- Test fixture: application state with a fetch already in flight. -/
def mLoading : AppModel :=
  { config := cfgOslo, weather_data := none, loading := true, error := none }

/-- Test fixture: application state holding a previous error message. -/
def mWithError : AppModel :=
  { config := cfgOslo, weather_data := none, loading := false
    error := some ("previous failure") }

/-- Test fixture: a configuration whose latitude 999 is far outside the
geographic range while still parsing as a number. -/
def mOutOfRange : AppModel :=
  { config :=
    { latitude := some ("999")
      longitude := some ("0")
      city := none
      units := "metric"
      auto_update := true
      update_interval := 15 }
    weather_data := none, loading := false, error := none }

/-- Test fixture: a configuration requesting a 1-minute update interval. -/
def cfgIntervalOne : Config :=
  { latitude := some ("59.91")
    longitude := some ("10.75")
    city := none
    units := "metric"
    auto_update := true
    update_interval := 1 }

/-- Test fixture: a configuration whose interval 2^63 is a valid u64 value
whose second count overflows the u64 multiplication. -/
def cfgHugeInterval : Config :=
  { latitude := some ("59.91")
    longitude := some ("10.75")
    city := none
    units := "metric"
    auto_update := true
    update_interval := 2 ^ 63 }

/-- Test fixture: entry whose next-hour block is absent. -/
def entryNoNextHour : Timeseries :=
  mkEntry (some (F64.val 7)) (some (F64.val 50)) none

/-- Test fixture: response with one entry and no next-hour block. -/
def respNoNextHour : MetWeatherResponse :=
  mkResp [entryNoNextHour]

/-- Test fixture: response with an empty time-series list. -/
def respEmpty : MetWeatherResponse :=
  mkResp []

/-- Test fixture: entry with every optional detail field absent. -/
def entryAllMissing : Timeseries :=
  mkEntry none none none

/-- Test fixture: response whose only entry has no detail values at all. -/
def respAllMissing : MetWeatherResponse :=
  mkResp [entryAllMissing]

/-- Test fixture: entry reporting relative humidity 80.9. -/
def entryHum809 : Timeseries :=
  mkEntry none (some (F64.val (Rat.divInt 809 10))) none

/-- Test fixture: response around the humidity-80.9 entry. -/
def respHum809 : MetWeatherResponse :=
  mkResp [entryHum809]

/-- Test fixture: entry reporting relative humidity 120.0. -/
def entryHum120 : Timeseries :=
  mkEntry none (some (F64.val 120)) none

/-- Test fixture: response around the humidity-120 entry. -/
def respHum120 : MetWeatherResponse :=
  mkResp [entryHum120]

/-- Test fixture: the end-to-end payload of the spec example — temperature
5.2 (the rational 26/5), humidity 80.0, next-hour symbol code lightrain. -/
def entryEndToEnd : Timeseries :=
  mkEntry (some (F64.val (Rat.divInt 26 5))) (some (F64.val 80))
    (some { summary := { symbol_code := "lightrain" }, details := none })

/-- Test fixture: response around the end-to-end entry. -/
def respEndToEnd : MetWeatherResponse :=
  mkResp [entryEndToEnd]

/-- Helper: the fixed prefix of the HTTP-failure message makes it distinct
from the no-data message, whatever the status renders to. -/
theorem api_failure_message_ne (s : String) :
    "API request failed with status: " ++ s ≠ "No weather data available" := by
  intro h
  have hlen := congrArg String.length h
  rw [String.length_append] at hlen
  have h1 : ("API request failed with status: ").length = 32 := by decide
  have h2 : ("No weather data available").length = 25 := by decide
  omega

/-- C1 (amended): the FetchWeather handler does not consult the loading
flag — whether a trigger starts an outbound fetch depends only on the
configuration, so a timer tick or redundant manual refresh arriving while a
fetch is in flight starts a second outbound fetch whenever the coordinates
parse. -/
theorem fetch_decision_depends_only_on_config (m₁ m₂ : AppModel)
    (h : m₁.config = m₂.config) :
    (update m₁ Message.FetchWeather).2 = (update m₂ Message.FetchWeather).2 := by
  obtain ⟨c₁, w₁, l₁, e₁⟩ := m₁
  obtain ⟨c₂, w₂, l₂, e₂⟩ := m₂
  simp only at h
  subst h
  obtain ⟨lat, lon, city, units, au, ui⟩ := c₁
  cases lat with
  | none => rfl
  | some s =>
      cases lon with
      | none => rfl
      | some t =>
          rcases hp : parseF64 s with _ | a <;> rcases hq : parseF64 t with _ | b <;>
            simp [update, hp, hq]

/-- C1 witness: two states sharing the Oslo configuration, one idle and one
with a fetch in flight, produce the same fetch task. -/
theorem fetch_decision_depends_only_on_config_witness :
    (update mIdle Message.FetchWeather).2 = (update mLoading Message.FetchWeather).2 :=
  fetch_decision_depends_only_on_config mIdle mLoading rfl

/-- C1 counterexample: with a fetch already in flight (loading = true), a
further FetchWeather trigger is not ignored — it starts a second outbound
fetch at the parsed coordinates. -/
theorem fetch_during_loading_starts_second_fetch :
    mLoading.loading = true
    ∧ (update mLoading Message.FetchWeather).2 =
        FetchTask.perform (F64.val (Rat.divInt 5991 100)) (F64.val (Rat.divInt 43 4))
    ∧ (update mLoading Message.FetchWeather).2 ≠ FetchTask.none := by
  refine ⟨rfl, by decide, by decide⟩

/-- C2: every delivered fetch outcome clears loading; a success replaces
the snapshot and clears the error, a failure records the error and leaves
the previous snapshot untouched — and nothing else changes. -/
theorem weather_fetched_outcome_spec (m : AppModel) (wd : WeatherData) (e : String) :
    update m (Message.WeatherFetched (Except.ok wd)) =
      ({ m with loading := false, weather_data := some wd, error := none }, FetchTask.none)
    ∧ update m (Message.WeatherFetched (Except.error e)) =
      ({ m with loading := false, error := some e }, FetchTask.none) :=
  ⟨rfl, rfl⟩

/-- C3 (amended): a beginning fetch sets loading to true and leaves the
snapshot and configuration unchanged, but it also clears the previously
stored error rather than preserving it. -/
theorem begin_fetch_sets_loading_and_clears_error (m : AppModel)
    (lat_str lon_str : String) (lat lon : F64)
    (h₁ : m.config.latitude = some lat_str) (h₂ : m.config.longitude = some lon_str)
    (h₃ : parseF64 lat_str = some lat) (h₄ : parseF64 lon_str = some lon) :
    update m Message.FetchWeather =
      ({ m with loading := true, error := none }, FetchTask.perform lat lon) := by
  simp [update, h₁, h₂, h₃, h₄]

/-- C3 witness: beginning a fetch from a state holding an old error yields
loading set, the error cleared and one fetch task at the parsed Oslo
coordinates. -/
theorem begin_fetch_sets_loading_and_clears_error_witness :
    update mWithError Message.FetchWeather =
      ({ mWithError with loading := true, error := none },
        FetchTask.perform (F64.val (Rat.divInt 5991 100)) (F64.val (Rat.divInt 43 4))) :=
  begin_fetch_sets_loading_and_clears_error mWithError ("59.91") ("10.75")
    (F64.val (Rat.divInt 5991 100)) (F64.val (Rat.divInt 43 4))
    rfl rfl (by decide) (by decide)

/-- C3 counterexample: the previously stored error is not preserved across
begin_fetch — it is reset to none. -/
theorem begin_fetch_clears_previous_error_cx :
    mWithError.error = some ("previous failure")
    ∧ (update mWithError Message.FetchWeather).1.error = none := by
  refine ⟨rfl, by decide⟩

/-- C6 (amended): the fetch guard checks only that both coordinate strings
are present and parse as numbers; no geographic range validation occurs, so
the handler result is fully determined by the parse results. -/
theorem fetch_guard_checks_parse_only (m : AppModel) :
    update m Message.FetchWeather =
      match m.config.latitude.bind parseF64, m.config.longitude.bind parseF64 with
      | some lat, some lon =>
          ({ m with loading := true, error := none }, FetchTask.perform lat lon)
      | _, _ => (m, FetchTask.none) := by
  obtain ⟨c, w, l, e⟩ := m
  obtain ⟨lat, lon, city, units, au, ui⟩ := c
  cases lat with
  | none => rfl
  | some s =>
      cases lon with
      | none =>
          rcases hp : parseF64 s with _ | a <;> simp [update, hp]
      | some t =>
          rcases hp : parseF64 s with _ | a <;> rcases hq : parseF64 t with _ | b <;>
            simp [update, hp, hq]

/-- C6 counterexample: latitude 999 parses as a number and is far outside
the valid range -90..90, yet a fetch is still attempted with it. -/
theorem out_of_range_coordinates_still_fetch_cx :
    (update mOutOfRange Message.FetchWeather).2 = FetchTask.perform (F64.val 999) (F64.val 0)
    ∧ ¬ ((999 : ℚ) ≤ 90) := by
  refine ⟨by decide, by decide⟩

/-- C9 (amended): whenever the periodic timer is active, its period in
seconds is the wrapped u64 product max(update_interval, 5) * 60 % 2^64;
whenever that product fits in a u64 — every realistic interval — the
period is exactly max(update_interval, 5) minutes, and in particular a
configured interval of 1 minute yields a 5-minute period, never 1; but a
u64 interval large enough to overflow the multiplication wraps instead, so
the floor equation does not hold for every configuration. -/
theorem timer_period_floor (cfg : Config) (p : ℕ)
    (h : subscriptionTimerSecs cfg = some p) :
    p = max cfg.update_interval 5 * 60 % 2 ^ 64
    ∧ (max cfg.update_interval 5 * 60 < 2 ^ 64 → p = max cfg.update_interval 5 * 60)
    ∧ (cfg.update_interval = 1 → p = 5 * 60) := by
  unfold subscriptionTimerSecs at h
  split at h
  · obtain rfl : max cfg.update_interval 5 * 60 % 2 ^ 64 = p := Option.some.inj h
    refine ⟨rfl, fun hb => Nat.mod_eq_of_lt hb, fun h1 => by rw [h1]; decide⟩
  · exact absurd h (Option.noConfusion)

/-- C9 witness: the interval-1 configuration has an active timer whose
period is 300 seconds, that is 5 minutes, never 1. -/
theorem timer_period_floor_witness :
    subscriptionTimerSecs cfgIntervalOne = some 300
    ∧ (300 : ℕ) = max cfgIntervalOne.update_interval 5 * 60 % 2 ^ 64
    ∧ (300 : ℕ) = max cfgIntervalOne.update_interval 5 * 60
    ∧ (300 : ℕ) = 5 * 60 := by
  have h : subscriptionTimerSecs cfgIntervalOne = some 300 := by decide
  have hp := timer_period_floor cfgIntervalOne 300 h
  exact ⟨h, hp.1, hp.2.1 (by decide), hp.2.2 rfl⟩

/-- C9 counterexample: with the valid u64 interval 2^63 the timer is
active, yet the u64 multiplication by 60 wraps to a 0-second period —
2^63 * 60 is a multiple of 2^64 — so the effective period does not equal
max(update_interval, 5) minutes for every active-timer configuration. -/
theorem timer_wraps_at_large_interval_cx :
    subscriptionTimerSecs cfgHugeInterval = some 0
    ∧ (0 : ℕ) ≠ max cfgHugeInterval.update_interval 5 * 60 := by
  refine ⟨by decide, by decide⟩

/-- Helper: for a nonnegative rational, the natural division num.toNat / den
used inside the cast is exactly the floor (and the truncation toward zero). -/
theorem trunc_div_eq_floor_toNat (q : ℚ) (hq : 0 ≤ q) :
    q.num.toNat / q.den = (Int.floor q).toNat := by
  have hnum : 0 ≤ q.num := Rat.num_nonneg.mpr hq
  rw [Rat.floor_def]
  obtain ⟨n, hn⟩ := Int.eq_ofNat_of_zero_le hnum
  rw [hn]
  simp only [Int.toNat_ofNat]
  exact_mod_cast rfl

/-- C4 (amended): when the first time-series entry has no next-hour
summary, the symbol code defaults to the literal string (clear sky), which
is not a key of either mapping table, so the snapshot carries the
description Unknown — the unmapped default — and the icon category 01d,
the table default that merely coincides with the clear-sky icon. -/
theorem missing_next_hour_defaults_unknown (resp : MetWeatherResponse) (ts : Timeseries)
    (rest : List Timeseries) (h : resp.properties.timeseries = ts :: rest)
    (hn : ts.data.next_1_hours = none) :
    ∃ wd, normalizeResponse resp = Except.ok wd
      ∧ wd.description = "Unknown" ∧ wd.icon = "01d" := by
  refine ⟨{ temperature := ts.data.instant.details.air_temperature.getD (F64.val 0)
            feels_like := ts.data.instant.details.air_temperature.getD (F64.val 0)
            humidity := (ts.data.instant.details.relative_humidity.getD (F64.val 0)).asU8
            description := map_weather_code_to_description ("clear sky")
            icon := map_weather_code_to_icon ("clear sky") }, ?_, rfl, rfl⟩
  simp [normalizeResponse, h, hn]

/-- C4 witness: the concrete response with one entry and no next-hour block
normalizes to the Unknown description and the 01d icon. -/
theorem missing_next_hour_defaults_unknown_witness :
    ∃ wd, normalizeResponse respNoNextHour = Except.ok wd
      ∧ wd.description = "Unknown" ∧ wd.icon = "01d" :=
  missing_next_hour_defaults_unknown respNoNextHour entryNoNextHour [] rfl rfl

/-- C4 counterexample: the snapshot produced for a missing next-hour block
carries the description Unknown, not the clear-sky description that the
tables give to a true clear-sky code. -/
theorem missing_next_hour_not_clear_sky_cx :
    (normalizeResponse respNoNextHour).toOption.map WeatherData.description = some ("Unknown")
    ∧ map_weather_code_to_description ("clearsky_day") = "Clear sky"
    ∧ "Unknown" ≠ "Clear sky" := by
  refine ⟨by decide, by decide, by decide⟩

/-- C5: an empty time-series list makes normalization fail with the fixed
no-data message and never an ok snapshot; that message differs from every
HTTP-status failure message, and a decode failure surfaces its own message
unchanged rather than the no-data one. -/
theorem empty_timeseries_distinct_error (resp : MetWeatherResponse)
    (h : resp.properties.timeseries = []) :
    normalizeResponse resp = Except.error ("No weather data available")
    ∧ (∀ wd, normalizeResponse resp ≠ Except.ok wd)
    ∧ (∀ status decoded, isSuccessStatus status = false →
        get_weather_data status decoded ≠ Except.error ("No weather data available"))
    ∧ (∀ status e, isSuccessStatus status = true →
        get_weather_data status (Except.error e) = Except.error e) := by
  have h1 : normalizeResponse resp = Except.error ("No weather data available") := by
    unfold normalizeResponse
    rw [h]
    rfl
  refine ⟨h1, ?_, ?_, ?_⟩
  · intro wd hw
    rw [h1] at hw
    exact Except.noConfusion hw
  · intro status decoded hst hcontra
    simp [get_weather_data, hst] at hcontra
    exact api_failure_message_ne (statusDisplay status) hcontra
  · intro status e hst
    simp [get_weather_data, hst]

/-- C5 witness: the empty response fails with the no-data message, an HTTP
404 failure does not produce that message, and a decode failure passes its
own message through. -/
theorem empty_timeseries_distinct_error_witness :
    normalizeResponse respEmpty = Except.error ("No weather data available")
    ∧ get_weather_data 404 (Except.ok respEmpty) ≠ Except.error ("No weather data available")
    ∧ get_weather_data 200 (Except.error ("decode failure")) = Except.error ("decode failure") := by
  obtain ⟨h1, _, h3, h4⟩ := empty_timeseries_distinct_error respEmpty rfl
  exact ⟨h1, h3 404 (Except.ok respEmpty) (by decide), h4 200 ("decode failure") (by decide)⟩

/-- C7: the two mapping tables send clearsky_day to Clear sky and 01d and
the unmapped code xyz_unknown to Unknown and 01d; end to end, the payload
with temperature 5.2 (the rational 26/5), humidity 80.0 and next-hour
symbol code lightrain normalizes to temperature 5.2, feels_like equal to
it, humidity 80, description Light rain and icon category 10d. -/
theorem mapping_tables_and_end_to_end :
    map_weather_code_to_description ("clearsky_day") = "Clear sky"
    ∧ map_weather_code_to_icon ("clearsky_day") = "01d"
    ∧ map_weather_code_to_description ("xyz_unknown") = "Unknown"
    ∧ map_weather_code_to_icon ("xyz_unknown") = "01d"
    ∧ (Rat.divInt 26 5 : ℚ) = 5.2
    ∧ normalizeResponse respEndToEnd = Except.ok
        { temperature := F64.val (Rat.divInt 26 5)
          feels_like := F64.val (Rat.divInt 26 5)
          humidity := 80
          description := "Light rain"
          icon := "10d" } := by
  refine ⟨by decide, by decide, by decide, by decide, ?_, rfl⟩
  rw [Rat.divInt_eq_div]
  norm_num

/-- C8: normalization is total on every response with at least one entry,
and the optional detail fields fall back to defaults rather than failing —
missing temperature yields 0.0 and missing humidity yields 0. -/
theorem normalize_total_with_defaults (resp : MetWeatherResponse) (ts : Timeseries)
    (rest : List Timeseries) (h : resp.properties.timeseries = ts :: rest) :
    ∃ wd, normalizeResponse resp = Except.ok wd
      ∧ (ts.data.instant.details.air_temperature = none → wd.temperature = F64.val 0)
      ∧ (ts.data.instant.details.relative_humidity = none → wd.humidity = 0) := by
  refine ⟨{ temperature := ts.data.instant.details.air_temperature.getD (F64.val 0)
            feels_like := ts.data.instant.details.air_temperature.getD (F64.val 0)
            humidity := (ts.data.instant.details.relative_humidity.getD (F64.val 0)).asU8
            description := map_weather_code_to_description
              ((ts.data.next_1_hours.map (fun nh => nh.summary.symbol_code)).getD ("clear sky"))
            icon := map_weather_code_to_icon
              ((ts.data.next_1_hours.map (fun nh => nh.summary.symbol_code)).getD ("clear sky")) },
        ?_, ?_, ?_⟩
  · simp [normalizeResponse, h]
  · intro ht
    simp [ht]
  · intro hh
    simp [hh]
    decide

/-- C8 witness: the response whose only entry carries no optional detail
fields normalizes to temperature 0.0 and humidity 0. -/
theorem normalize_total_with_defaults_witness :
    ∃ wd, normalizeResponse respAllMissing = Except.ok wd
      ∧ wd.temperature = F64.val 0 ∧ wd.humidity = 0 := by
  obtain ⟨wd, h1, h2, h3⟩ :=
    normalize_total_with_defaults respAllMissing entryAllMissing [] rfl
  exact ⟨wd, h1, h2 rfl, h3 rfl⟩

/-- C10: the stored humidity is the provider relative humidity put through
the saturating f64-to-u8 cast — for a nonnegative value with floor at most
255 the fractional part is truncated (the floor is stored), values whose
floor exceeds 255 saturate to 255, negative values and NaN become 0 — so a
provider value above 100 is stored above the documented 0..100 range. -/
theorem humidity_saturating_cast (resp : MetWeatherResponse) (ts : Timeseries)
    (rest : List Timeseries) (x : F64)
    (h : resp.properties.timeseries = ts :: rest)
    (hx : ts.data.instant.details.relative_humidity = some x) :
    ∃ wd, normalizeResponse resp = Except.ok wd
      ∧ wd.humidity = x.asU8
      ∧ (∀ q : ℚ, x = F64.val q → 0 ≤ q → Int.floor q ≤ 255 →
          wd.humidity = (Int.floor q).toNat)
      ∧ (∀ q : ℚ, x = F64.val q → 255 < Int.floor q → wd.humidity = 255)
      ∧ (∀ q : ℚ, x = F64.val q → q < 0 → wd.humidity = 0)
      ∧ (x = F64.nan → wd.humidity = 0) := by
  refine ⟨{ temperature := ts.data.instant.details.air_temperature.getD (F64.val 0)
            feels_like := ts.data.instant.details.air_temperature.getD (F64.val 0)
            humidity := (ts.data.instant.details.relative_humidity.getD (F64.val 0)).asU8
            description := map_weather_code_to_description
              ((ts.data.next_1_hours.map (fun nh => nh.summary.symbol_code)).getD ("clear sky"))
            icon := map_weather_code_to_icon
              ((ts.data.next_1_hours.map (fun nh => nh.summary.symbol_code)).getD ("clear sky")) },
        ?_, ?_, ?_, ?_, ?_, ?_⟩
  · simp [normalizeResponse, h]
  · simp [hx]
  · intro q hq hq0 hq255
    subst hq
    simp [hx, F64.asU8, not_lt.mpr hq0]
    rw [trunc_div_eq_floor_toNat q hq0]
    have hle : (Int.floor q).toNat ≤ 255 := Int.toNat_le.mpr (by exact_mod_cast hq255)
    omega
  · intro q hq hq255
    subst hq
    have hq0 : (0 : ℚ) ≤ q := by
      have h256 : ((256 : ℤ) : ℚ) ≤ q := Int.le_floor.mp (by omega)
      push_cast at h256
      linarith
    simp [hx, F64.asU8, not_lt.mpr hq0]
    rw [trunc_div_eq_floor_toNat q hq0]
    have hge : 255 ≤ (Int.floor q).toNat := by
      have : (255 : ℤ) ≤ Int.floor q := le_of_lt hq255
      omega
    omega
  · intro q hq hqneg
    subst hq
    simp [hx, F64.asU8, hqneg]
  · intro hq
    subst hq
    simp [hx, F64.asU8]

/-- C10 witness: humidity 80.9 is stored truncated as 80, and humidity
120.0 is stored as 120, above the documented 0..100 range. -/
theorem humidity_saturating_cast_witness :
    (∃ wd, normalizeResponse respHum809 = Except.ok wd ∧ wd.humidity = 80)
    ∧ (∃ wd, normalizeResponse respHum120 = Except.ok wd
        ∧ wd.humidity = 120 ∧ 100 < wd.humidity) := by
  constructor
  · obtain ⟨wd, h1, h2, _⟩ := humidity_saturating_cast respHum809 entryHum809 []
      (F64.val (Rat.divInt 809 10)) rfl rfl
    exact ⟨wd, h1, by rw [h2]; decide⟩
  · obtain ⟨wd, h1, h2, _⟩ := humidity_saturating_cast respHum120 entryHum120 []
      (F64.val 120) rfl rfl
    refine ⟨wd, h1, by rw [h2]; decide, by rw [h2]; decide⟩

end CosmicWeather
